import Mathlib

/-!
Verification development for the JusCash LLM verifier service
(`src/main.py`, `src/app_ui.py`).

The embedding models:
  * the Pydantic data contracts `DecisaoProcesso` (output) and
    `ProcessoJudicial` (input), together with the structural validation that
    Pydantic performs on them (required fields, structural types, unknown
    keys ignored — the models declare no `model_config`, so the v2 default
    `extra='ignore'` applies, and no enum/range constraints are declared:
    `Field(description=...)` attaches documentation only);
  * the policy text `POLITICA_JUSCASH`;
  * the Gemini-backed evaluator `verificar_processo_llm_gemini`, with the
    external world (environment variable, client construction, the single
    `generate_content` call) passed in explicitly as a `GeminiEnv`;
  * the FastAPI endpoints `health_check` (`GET /health`) and
    `verificar_processo` (`POST /verificar`), including FastAPI's body
    validation (422 on schema mismatch) and the exception-to-status mapping.

A note on the source text: in `src/main.py` the blocks numbered `# 2`
(client construction with `HttpOptions`) and `# 6`–`# 8` (empty-text check,
safety-block check, `model_validate_json`) were pasted at the wrong
indentation depth, so the file as written does not parse as Python.  The
numbered comments, the surrounding `try`/`except` pairs and the final
wrap-and-reraise handler make the intended statement order unambiguous, and
the embedding follows that order; the slip itself is recorded where a claim
touches it.

Booleans returned by the embedded handler functions record whether the
outbound `generate_content` call was performed, making "the reasoning
service is never called" statements expressible.
-/

set_option maxHeartbeats 1000000
set_option maxRecDepth 100000

/-- JSON values: the wire format on both sides of the HTTP boundary and of
the LLM response text. Numbers are modelled as integers; no claim depends
on fractional values. -/
inductive Json where
  | null : Json
  | bool (b : Bool) : Json
  | num (n : Int) : Json
  | str (s : String) : Json
  | arr (elems : List Json) : Json
  | obj (fields : List (String × Json)) : Json

/-- First-match lookup of a key in a JSON object's field list. -/
def jlookup (fields : List (String × Json)) (key : String) : Option Json :=
  match fields with
  | [] => none
  | (k, v) :: rest => if k = key then some v else jlookup rest key

/-- Output contract `DecisaoProcesso` (src/main.py lines 20-34): three
required fields, all structurally typed only — the permitted decision kinds
appear in `Field(description=...)` strings, which Pydantic does not
enforce. -/
structure DecisaoProcesso where
  decision : String
  rationale : String
  citacoes : List String
deriving DecidableEq

/-- Input contract `ProcessoJudicial` (src/main.py lines 37-46): seven
required fields, structurally typed, no defaults, no declared constraints
on `esfera` or `valorCondenacao`. -/
structure ProcessoJudicial where
  numeroProcesso : String
  esfera : String
  valorCondenacao : Int
  documentos_faltando : Bool
  transitou_julgado : Bool
  substabelecimento_sem_reserva : Bool
  obito_autor : Bool
deriving DecidableEq

/-- The seven required field names of `ProcessoJudicial`, in declaration
order. -/
def requiredKeys : List String :=
  ["numeroProcesso", "esfera", "valorCondenacao", "documentos_faltando",
   "transitou_julgado", "substabelecimento_sem_reserva", "obito_autor"]

/-- Pydantic extraction of a required string field. -/
def getStr (kvs : List (String × Json)) (k : String) : Except String String :=
  match jlookup kvs k with
  | some (Json.str s) => Except.ok s
  | some _ => Except.error ("Input should be a valid string: " ++ k)
  | none => Except.error ("Field required: " ++ k)

/-- Pydantic extraction of a required numeric field. -/
def getNum (kvs : List (String × Json)) (k : String) : Except String Int :=
  match jlookup kvs k with
  | some (Json.num n) => Except.ok n
  | some _ => Except.error ("Input should be a valid number: " ++ k)
  | none => Except.error ("Field required: " ++ k)

/-- Pydantic extraction of a required boolean field. -/
def getBool (kvs : List (String × Json)) (k : String) : Except String Bool :=
  match jlookup kvs k with
  | some (Json.bool b) => Except.ok b
  | some _ => Except.error ("Input should be a valid boolean: " ++ k)
  | none => Except.error ("Field required: " ++ k)

/-- Requires every array element to be a JSON string. -/
def asStrList (xs : List Json) : Except String (List String) :=
  match xs with
  | [] => Except.ok []
  | Json.str s :: rest => do
    let r ← asStrList rest
    return s :: r
  | _ :: _ => Except.error "Input should be a valid string: citacoes item"

/-- Pydantic extraction of a required list-of-strings field. -/
def getStrList (kvs : List (String × Json)) (k : String) : Except String (List String) :=
  match jlookup kvs k with
  | some (Json.arr xs) => asStrList xs
  | some _ => Except.error ("Input should be a valid list: " ++ k)
  | none => Except.error ("Field required: " ++ k)

/-- Pydantic validation of a request body against `ProcessoJudicial`:
field presence and structural type only; unknown keys are ignored
(`extra='ignore'` default). -/
def validateProcesso (j : Json) : Except String ProcessoJudicial :=
  match j with
  | Json.obj kvs => do
    let numeroProcesso ← getStr kvs "numeroProcesso"
    let esfera ← getStr kvs "esfera"
    let valorCondenacao ← getNum kvs "valorCondenacao"
    let documentos_faltando ← getBool kvs "documentos_faltando"
    let transitou_julgado ← getBool kvs "transitou_julgado"
    let substabelecimento_sem_reserva ← getBool kvs "substabelecimento_sem_reserva"
    let obito_autor ← getBool kvs "obito_autor"
    return ⟨numeroProcesso, esfera, valorCondenacao, documentos_faltando,
            transitou_julgado, substabelecimento_sem_reserva, obito_autor⟩
  | _ => Except.error "Input should be a valid dictionary"

/-- Pydantic validation of a decoded LLM response against
`DecisaoProcesso` (the validation half of `model_validate_json`): field
presence and structural type only. -/
def validateDecisao (j : Json) : Except String DecisaoProcesso :=
  match j with
  | Json.obj kvs => do
    let decision ← getStr kvs "decision"
    let rationale ← getStr kvs "rationale"
    let citacoes ← getStrList kvs "citacoes"
    return ⟨decision, rationale, citacoes⟩
  | _ => Except.error "Input should be a valid dictionary: DecisaoProcesso"

/-- The policy text `POLITICA_JUSCASH` (src/main.py lines 56-69),
verbatim. -/
def POLITICA_JUSCASH : String :=
  "\nRegra-base (elegibilidade)\nPOL-1: Só compramos crédito de processos transitados em julgado e em fase de execução.\nPOL-2: Exigir valor de condenação informado.\n\nQuando NÃO compramos o crédito (Rejeitar - rejected)\nPOL-3: Valor de condenação < R$ 1.000,00 não compra (REJEITAR).\nPOL-4: Condenações na esfera trabalhista não compra (REJEITAR).\nPOL-5: Óbito do autor sem habilitação no inventário não compra (REJEITAR).\nPOL-6: Substabelecimento sem reserva de poderes não compra (REJEITAR).\n\nSaídas e qualidade (Incompleto - incomplete)\nPOL-8: Se faltar documento essencial (ex.: trânsito em julgado não comprovado) INCOMPLETE.\n"

/-- Whether `needle` occurs at the head of `hay`. -/
def listStarts (hay needle : List Char) : Bool :=
  match hay, needle with
  | _, [] => true
  | [], _ :: _ => false
  | a :: as, b :: bs => a == b && listStarts as bs

/-- Whether `needle` occurs contiguously anywhere in `hay`. -/
def listHas (needle : List Char) : List Char → Bool
  | [] => listStarts [] needle
  | c :: rest => listStarts (c :: rest) needle || listHas needle rest

/-- Whether a rule identifier occurs in the policy document text. -/
def mentionsRule (rid : String) : Bool :=
  listHas rid.toList POLITICA_JUSCASH.toList

/-- Python truthiness rendering of a boolean for `json.dumps`. -/
def pyBool (b : Bool) : String :=
  match b with
  | true => "true"
  | false => "false"

/-- The `json.dumps(processo.model_dump(), indent=2)` rendering used inside
the prompt (field order = declaration order). -/
def dumpProcesso (p : ProcessoJudicial) : String :=
  "\x7b\n" ++
  "  \x22numeroProcesso\x22: \x22" ++ p.numeroProcesso ++ "\x22,\n" ++
  "  \x22esfera\x22: \x22" ++ p.esfera ++ "\x22,\n" ++
  "  \x22valorCondenacao\x22: " ++ toString p.valorCondenacao ++ ",\n" ++
  "  \x22documentos_faltando\x22: " ++ pyBool p.documentos_faltando ++ ",\n" ++
  "  \x22transitou_julgado\x22: " ++ pyBool p.transitou_julgado ++ ",\n" ++
  "  \x22substabelecimento_sem_reserva\x22: " ++ pyBool p.substabelecimento_sem_reserva ++ ",\n" ++
  "  \x22obito_autor\x22: " ++ pyBool p.obito_autor ++ "\n" ++
  "\x7d"

/-- The prompt assembled in step `# 3` of `verificar_processo_llm_gemini`:
fixed instruction framing, the full policy text, and the serialized record
(quote characters of the original instruction text elided). -/
def buildPrompt (processo : ProcessoJudicial) : String :=
  "\n    Você é o Analista de Machine Learning da JusCash. Aplique as regras da Política JusCash\n    abaixo nos dados do processo e retorne a sua análise no formato JSON exigido.\n\n    # Regras da Política JusCash:\n    " ++
  POLITICA_JUSCASH ++
  "\n\n    # Dados do Processo:\n    " ++
  dumpProcesso processo ++
  "\n\n    Determine a decisão (approved, rejected, incomplete) e cite as regras (POL-X) que a justificam.\n    "

/-- `types.HttpOptions` carrying the request timeout, as constructed in the
client-initialisation block of `verificar_processo_llm_gemini`. -/
structure HttpOptions where
  timeout : Nat
deriving DecidableEq

/-- The options actually passed: `types.HttpOptions(timeout=300)`
(src/main.py lines 88-90; the adjacent comment reads "(60 segundos)"). -/
def http_options : HttpOptions := ⟨300⟩

/-- The text of a `generate_content` response, as the evaluator observes
it: `noText` models a falsy `response.text` (None or the empty string),
`malformed` a non-empty text that is not valid JSON, `json` a non-empty
text parsing to the given JSON value. -/
inductive RespText where
  | noText : RespText
  | malformed (raw : String) : RespText
  | json (j : Json) : RespText

/-- Whether `response.text` is falsy (`if not response.text`). -/
def isNoText (t : RespText) : Bool :=
  match t with
  | RespText.noText => true
  | _ => false

/-- The parts of a `generate_content` response the code inspects:
`response.text`, `response.prompt_feedback.block_reason` (0 means not
blocked) and its `.name`. -/
structure GeminiResponse where
  text : RespText
  blockReason : Nat
  blockReasonName : String

/-- Outcome of the single outbound `generate_content` call: either an
exception (network, timeout, rate limit, ...) with its message, or a
response. -/
inductive CallOutcome where
  | raised (msg : String) : CallOutcome
  | returned (r : GeminiResponse) : CallOutcome

/-- The process environment the evaluator interacts with: the
`GEMINI_API_KEY` environment variable as read at module load
(`os.getenv`, `none` when unset), whether `genai.Client` construction
raises (with the exception message), and the outcome of the outbound call
as a function of the prompt sent. -/
structure GeminiEnv where
  GEMINI_API_KEY : Option String
  clientInitError : Option String
  call : String → CallOutcome

/-- Python truthiness of the key check `if not GEMINI_API_KEY`. -/
def isFalsyKey (k : Option String) : Bool :=
  match k with
  | none => true
  | some s => s.isEmpty

/-- The two exception classes the evaluator raises, with their messages
(`str(e)`). `otherError` stands for any other exception class, matched by
the handler's final `except Exception`. -/
inductive PyError where
  | connectionError (msg : String) : PyError
  | runtimeError (msg : String) : PyError
  | otherError (msg : String) : PyError
deriving DecidableEq

/-- Message of the missing-credential `ConnectionError` (line 80). -/
def msgMissingKey : String :=
  "Chave GEMINI_API_KEY não configurada no ambiente."

/-- Message head of the client-initialisation `ConnectionError` (line 98). -/
def msgInit : String := "Erro ao inicializar o cliente Gemini: "

/-- Message of the empty-response `RuntimeError` (step `# 6`, line 132). -/
def msgEmpty : String :=
  "O LLM Gemini não retornou nenhum texto (Resposta vazia). Verifique a chave e limites de uso."

/-- Message head of the safety-block `RuntimeError` (step `# 7`, line 137). -/
def msgBlocked : String := "O Prompt foi bloqueado por motivo de segurança: "

/-- Message head of the outer wrap-and-reraise `RuntimeError` (line 144). -/
def msgWrap : String := "Erro na chamada do modelo Gemini: "

/-- Message produced by `model_validate_json` on text that is not valid
JSON. -/
def msgBadJson (raw : String) : String := "Invalid JSON: " ++ raw

/-- The body of the `try` around the outbound call (steps `# 5`-`# 8`): the
call itself, then — in this order — the empty-text check, the safety-block
check, and decode-and-validate against `DecisaoProcesso`. Any error
(including an exception raised by the call) surfaces as a message that the
enclosing `except` will wrap. -/
def geminiTryBody (outcome : CallOutcome) : Except String DecisaoProcesso :=
  match outcome with
  | CallOutcome.raised m => Except.error m
  | CallOutcome.returned r =>
    if isNoText r.text then Except.error msgEmpty
    else if r.blockReason ≠ 0 then Except.error (msgBlocked ++ r.blockReasonName)
    else
      match r.text with
      | RespText.noText => Except.error msgEmpty
      | RespText.malformed raw => Except.error (msgBadJson raw)
      | RespText.json j => validateDecisao j

/-- The evaluator `verificar_processo_llm_gemini` (src/main.py lines
71-144, statement order as the numbered comments dictate): credential
check raising `ConnectionError`; client construction (wrapping failures in
`ConnectionError`); prompt construction; the single outbound call with the
response checks, every failure inside that `try` re-raised as
`RuntimeError("Erro na chamada do modelo Gemini: ...")`. The second
component records whether `generate_content` was invoked. -/
def verificar_processo_llm_gemini (env : GeminiEnv) (processo : ProcessoJudicial) :
    Except PyError DecisaoProcesso × Bool :=
  if isFalsyKey env.GEMINI_API_KEY then
    (Except.error (PyError.connectionError msgMissingKey), false)
  else
    match env.clientInitError with
    | some e => (Except.error (PyError.connectionError (msgInit ++ e)), false)
    | none =>
      match geminiTryBody (env.call (buildPrompt processo)) with
      | Except.ok d => (Except.ok d, true)
      | Except.error m => (Except.error (PyError.runtimeError (msgWrap ++ m)), true)

/-- An HTTP response: status code and JSON body. -/
structure HttpResponse where
  status : Nat
  body : Json

/-- FastAPI's error body for an `HTTPException(status_code=..., detail=m)`. -/
def detailBody (m : String) : Json := Json.obj [("detail", Json.str m)]

/-- FastAPI's serialization of the `response_model=DecisaoProcesso`. -/
def serializeDecisao (d : DecisaoProcesso) : Json :=
  Json.obj [("decision", Json.str d.decision), ("rationale", Json.str d.rationale),
            ("citacoes", Json.arr (d.citacoes.map Json.str))]

/-- Method and path of the decision endpoint:
`@app.post("/verificar", ...)` (src/main.py line 164). -/
def verificar_route : String × String := ("POST", "/verificar")

/-- Method and path of the liveness endpoint: `@app.get("/health", ...)`
(src/main.py line 158). -/
def health_route : String × String := ("GET", "/health")

/-- The handler `verificar_processo` (src/main.py lines 164-189) together
with FastAPI's request-body validation: a body failing `ProcessoJudicial`
validation is answered 422 before the handler runs; otherwise the
evaluator is invoked and its exceptions are mapped —
`ConnectionError` → 500, `RuntimeError` → 503, anything else → 500 — while
success returns 200 with the serialized decision. The second component
records whether the outbound LLM call was performed. -/
def verificar_processo (env : GeminiEnv) (payload : Json) : HttpResponse × Bool :=
  match validateProcesso payload with
  | Except.error m => (⟨422, detailBody m⟩, false)
  | Except.ok p =>
    match verificar_processo_llm_gemini env p with
    | (Except.ok d, c) => (⟨200, serializeDecisao d⟩, c)
    | (Except.error (PyError.connectionError m), c) =>
      (⟨500, detailBody ("Erro de Configuração: " ++ m)⟩, c)
    | (Except.error (PyError.runtimeError m), c) =>
      (⟨503, detailBody ("Erro no Serviço LLM: " ++ m)⟩, c)
    | (Except.error (PyError.otherError m), c) =>
      (⟨500, detailBody ("Erro Interno Inesperado: " ++ m)⟩, c)

/-- The handler `health_check` (src/main.py lines 158-161): a constant
response, independent of the process environment (the function reads no
global state and calls nothing); the environment is taken as a parameter
exactly to state that independence. The second component (outbound LLM
call performed) is `false`. -/
def health_check (_env : GeminiEnv) : HttpResponse × Bool :=
  (⟨200, Json.obj [("status", Json.str "ok"), ("message", Json.str "API operacional")]⟩, false)

/-! ## Helper lemmas about the validation layer -/

/-- A required string field that extracted successfully was present. -/
theorem getStr_ok_isSome {kvs : List (String × Json)} {k s : String}
    (h : getStr kvs k = Except.ok s) : (jlookup kvs k).isSome = true := by
  unfold getStr at h
  cases hl : jlookup kvs k with
  | none => rw [hl] at h; exact absurd h (by simp)
  | some v => simp

/-- A required numeric field that extracted successfully was present. -/
theorem getNum_ok_isSome {kvs : List (String × Json)} {k : String} {n : Int}
    (h : getNum kvs k = Except.ok n) : (jlookup kvs k).isSome = true := by
  unfold getNum at h
  cases hl : jlookup kvs k with
  | none => rw [hl] at h; exact absurd h (by simp)
  | some v => simp

/-- A required boolean field that extracted successfully was present. -/
theorem getBool_ok_isSome {kvs : List (String × Json)} {k : String} {b : Bool}
    (h : getBool kvs k = Except.ok b) : (jlookup kvs k).isSome = true := by
  unfold getBool at h
  cases hl : jlookup kvs k with
  | none => rw [hl] at h; exact absurd h (by simp)
  | some v => simp

/-- A required list-of-strings field that extracted successfully was
present. -/
theorem getStrList_ok_isSome {kvs : List (String × Json)} {k : String} {l : List String}
    (h : getStrList kvs k = Except.ok l) : (jlookup kvs k).isSome = true := by
  unfold getStrList at h
  cases hl : jlookup kvs k with
  | none => rw [hl] at h; exact absurd h (by simp)
  | some v => simp

/-- If `ProcessoJudicial` validation succeeds, every one of the seven
required fields was present in the payload. -/
theorem validateProcesso_ok_isSome {kvs : List (String × Json)} {p : ProcessoJudicial}
    (h : validateProcesso (Json.obj kvs) = Except.ok p) :
    ∀ k ∈ requiredKeys, (jlookup kvs k).isSome = true := by
  intro k hk
  simp only [validateProcesso, bind, Except.bind] at h
  cases h1 : getStr kvs "numeroProcesso" with
  | error m => rw [h1] at h; exact absurd h (by simp)
  | ok v1 =>
  rw [h1] at h
  cases h2 : getStr kvs "esfera" with
  | error m => rw [h2] at h; exact absurd h (by simp)
  | ok v2 =>
  rw [h2] at h
  cases h3 : getNum kvs "valorCondenacao" with
  | error m => rw [h3] at h; exact absurd h (by simp)
  | ok v3 =>
  rw [h3] at h
  cases h4 : getBool kvs "documentos_faltando" with
  | error m => rw [h4] at h; exact absurd h (by simp)
  | ok v4 =>
  rw [h4] at h
  cases h5 : getBool kvs "transitou_julgado" with
  | error m => rw [h5] at h; exact absurd h (by simp)
  | ok v5 =>
  rw [h5] at h
  cases h6 : getBool kvs "substabelecimento_sem_reserva" with
  | error m => rw [h6] at h; exact absurd h (by simp)
  | ok v6 =>
  rw [h6] at h
  cases h7 : getBool kvs "obito_autor" with
  | error m => rw [h7] at h; exact absurd h (by simp)
  | ok v7 =>
  simp only [requiredKeys, List.mem_cons, List.not_mem_nil, or_false] at hk
  rcases hk with rfl | rfl | rfl | rfl | rfl | rfl | rfl
  · exact getStr_ok_isSome h1
  · exact getStr_ok_isSome h2
  · exact getNum_ok_isSome h3
  · exact getBool_ok_isSome h4
  · exact getBool_ok_isSome h5
  · exact getBool_ok_isSome h6
  · exact getBool_ok_isSome h7

/-- A payload lacking any one of the seven required fields fails
`ProcessoJudicial` validation. -/
theorem validateProcesso_err_of_missing (kvs : List (String × Json)) (k : String)
    (hk : k ∈ requiredKeys) (hmiss : jlookup kvs k = none) :
    ∃ m, validateProcesso (Json.obj kvs) = Except.error m := by
  cases hv : validateProcesso (Json.obj kvs) with
  | error m => exact ⟨m, rfl⟩
  | ok p =>
    have hs := validateProcesso_ok_isSome hv k hk
    rw [hmiss] at hs
    exact absurd hs (by simp)

/-- The three required field names of `DecisaoProcesso`. -/
def requiredDecisaoKeys : List String := ["decision", "rationale", "citacoes"]

/-- If `DecisaoProcesso` validation succeeds, every one of the three
required fields was present in the decoded response. -/
theorem validateDecisao_ok_isSome {kvs : List (String × Json)} {d : DecisaoProcesso}
    (h : validateDecisao (Json.obj kvs) = Except.ok d) :
    ∀ k ∈ requiredDecisaoKeys, (jlookup kvs k).isSome = true := by
  intro k hk
  simp only [validateDecisao, bind, Except.bind] at h
  cases h1 : getStr kvs "decision" with
  | error m => rw [h1] at h; exact absurd h (by simp)
  | ok v1 =>
  rw [h1] at h
  cases h2 : getStr kvs "rationale" with
  | error m => rw [h2] at h; exact absurd h (by simp)
  | ok v2 =>
  rw [h2] at h
  cases h3 : getStrList kvs "citacoes" with
  | error m => rw [h3] at h; exact absurd h (by simp)
  | ok v3 =>
  simp only [requiredDecisaoKeys, List.mem_cons, List.not_mem_nil, or_false] at hk
  rcases hk with rfl | rfl | rfl
  · exact getStr_ok_isSome h1
  · exact getStr_ok_isSome h2
  · exact getStrList_ok_isSome h3

/-- Response JSON lacking any required `DecisaoProcesso` field fails
validation. -/
theorem validateDecisao_err_of_missing (kvs : List (String × Json)) (k : String)
    (hk : k ∈ requiredDecisaoKeys) (hmiss : jlookup kvs k = none) :
    ∃ m, validateDecisao (Json.obj kvs) = Except.error m := by
  cases hv : validateDecisao (Json.obj kvs) with
  | error m => exact ⟨m, rfl⟩
  | ok d =>
    have hs := validateDecisao_ok_isSome hv k hk
    rw [hmiss] at hs
    exact absurd hs (by simp)

/-! ## Helper lemmas about the failure messages -/

/-- The empty-response message does not begin with the safety-block
message head, so it differs from every safety-block message. -/
theorem data_head_ne (name : String) : msgEmpty.data ≠ msgBlocked.data ++ name.data := by
  intro h
  have ht : msgEmpty.data.take msgBlocked.data.length = msgBlocked.data := by
    rw [h, List.take_left]
  exact absurd ht (by decide)

/-- The empty-response failure carries a different message than any
safety-block failure. -/
theorem msgEmpty_ne_blocked (name : String) : msgEmpty ≠ msgBlocked ++ name := by
  intro h
  exact data_head_ne name (by rw [h, String.data_append])

/-- The wrapped empty-response message differs from every wrapped
safety-block message. -/
theorem wrapped_empty_ne_blocked (name : String) :
    msgWrap ++ msgEmpty ≠ msgWrap ++ (msgBlocked ++ name) := by
  intro h
  have hd := congrArg String.data h
  simp only [String.data_append] at hd
  exact data_head_ne name (List.append_cancel_left hd)

/-! ## Concrete fixtures used by counterexamples and witnesses -/

/-- A well-formed input record. -/
def proc0 : ProcessoJudicial := ⟨"0001", "Federal", 5000, false, true, false, false⟩

/-- A list of payload fields matching the seven declared `ProcessoJudicial`
fields, in declaration order. -/
def stdPayload (n e : String) (v : Int) (a b c d : Bool) : List (String × Json) :=
  [("numeroProcesso", Json.str n), ("esfera", Json.str e), ("valorCondenacao", Json.num v),
   ("documentos_faltando", Json.bool a), ("transitou_julgado", Json.bool b),
   ("substabelecimento_sem_reserva", Json.bool c), ("obito_autor", Json.bool d)]

/-- A fully valid request payload. -/
def payloadOk : Json := Json.obj (stdPayload "0001" "Federal" 5000 false true false false)

/-- Environment with key present, client construction succeeding, and the
model returning a well-typed decision citing POL-1. -/
def envOkDecision : GeminiEnv :=
  ⟨some "k", none, fun _ => CallOutcome.returned
    ⟨RespText.json (Json.obj
      [("decision", Json.str "approved"), ("rationale", Json.str "ok"),
       ("citacoes", Json.arr [Json.str "POL-1"])]), 0, "BLOCK_REASON_UNSPECIFIED"⟩⟩

/-- Environment whose model response is well-typed JSON with a decision
kind outside the three permitted values, an empty rationale and a citation
identifier absent from the policy text. -/
def envBanana : GeminiEnv :=
  ⟨some "k", none, fun _ => CallOutcome.returned
    ⟨RespText.json (Json.obj
      [("decision", Json.str "banana"), ("rationale", Json.str ""),
       ("citacoes", Json.arr [Json.str "POL-999"])]), 0, "BLOCK_REASON_UNSPECIFIED"⟩⟩

/-- Environment whose model response is well-typed JSON with an empty
citation list. -/
def envEmptyCitacoes : GeminiEnv :=
  ⟨some "k", none, fun _ => CallOutcome.returned
    ⟨RespText.json (Json.obj
      [("decision", Json.str "approved"), ("rationale", Json.str "r"),
       ("citacoes", Json.arr [])]), 0, "BLOCK_REASON_UNSPECIFIED"⟩⟩

/-- Environment with the credential absent. -/
def envNoKey : GeminiEnv := ⟨none, none, fun _ => CallOutcome.raised "unreached"⟩

/-- Environment whose model returns no text. -/
def envEmptyText : GeminiEnv :=
  ⟨some "k", none, fun _ => CallOutcome.returned ⟨RespText.noText, 0, "BLOCK_REASON_UNSPECIFIED"⟩⟩

/-- Environment whose model blocks the prompt for safety. -/
def envBlockedResp : GeminiEnv :=
  ⟨some "k", none, fun _ => CallOutcome.returned ⟨RespText.json Json.null, 1, "SAFETY"⟩⟩

/-- Environment whose outbound call raises (e.g. a timeout). -/
def envRaised : GeminiEnv := ⟨some "k", none, fun _ => CallOutcome.raised "timeout"⟩

/-- Environment whose model returns JSON missing every required output
field. -/
def envBadSchema : GeminiEnv :=
  ⟨some "k", none, fun _ => CallOutcome.returned
    ⟨RespText.json (Json.obj []), 0, "BLOCK_REASON_UNSPECIFIED"⟩⟩

/-- Environment whose model returns non-JSON text. -/
def envMalformed : GeminiEnv :=
  ⟨some "k", none, fun _ => CallOutcome.returned ⟨RespText.malformed "oops", 0, "BLOCK_REASON_UNSPECIFIED"⟩⟩

/-- A request payload omitting the required `valorCondenacao` field. -/
def payloadMissingValor : Json :=
  Json.obj [("numeroProcesso", Json.str "0001"), ("esfera", Json.str "Federal"),
            ("documentos_faltando", Json.bool false), ("transitou_julgado", Json.bool true),
            ("substabelecimento_sem_reserva", Json.bool false), ("obito_autor", Json.bool false)]

/-- A request payload whose judicial sphere lies outside every enumeration
and whose condemnation value is negative. -/
def payloadMunicipal : Json := Json.obj (stdPayload "0002" "Municipal" (-1) false true false false)

/-! ## Claim theorems -/

/-- Claim C1 (corrected by `C1_counterexample`): the code enforces no
constraint beyond structural typing on a successful evaluation result. At
the explicit environment `envBanana` the evaluator succeeds and returns a
decision kind outside {approved, rejected, incomplete} with an empty
rationale and a citation identifier absent from the policy text, and at
`envEmptyCitacoes` it succeeds with an empty citation list. -/
theorem C1_counterexample :
    (verificar_processo_llm_gemini envBanana proc0).1 =
      Except.ok ⟨"banana", "", ["POL-999"]⟩ ∧
    ¬("banana" = "approved" ∨ "banana" = "rejected" ∨ "banana" = "incomplete") ∧
    mentionsRule "POL-999" = false ∧ mentionsRule "POL-1" = true ∧
    (verificar_processo_llm_gemini envEmptyCitacoes proc0).1 =
      Except.ok ⟨"approved", "r", []⟩ :=
  ⟨rfl, by decide, by decide, by decide, rfl⟩

/-- Claim C1, amended: whenever the evaluator succeeds it returns exactly
the `DecisaoProcesso` decoded from the response text subject only to the
structural typing of the output schema (string `decision`, string
`rationale`, list-of-strings `citacoes`); the three-kinds restriction,
non-emptiness of rationale or citations, and policy membership of the
citations are not checked. -/
theorem C1_amended (env : GeminiEnv) (p : ProcessoJudicial) (r : GeminiResponse) (j : Json)
    (d : DecisaoProcesso)
    (hkey : isFalsyKey env.GEMINI_API_KEY = false)
    (hinit : env.clientInitError = none)
    (hcall : env.call (buildPrompt p) = CallOutcome.returned r)
    (htext : r.text = RespText.json j)
    (hblock : r.blockReason = 0)
    (hval : validateDecisao j = Except.ok d) :
    verificar_processo_llm_gemini env p = (Except.ok d, true) := by
  simp [verificar_processo_llm_gemini, hkey, hinit, hcall, geminiTryBody, htext, hblock, hval,
        isNoText]

/-- Concrete instance of `C1_amended` at `envOkDecision`. -/
theorem C1_amended_witness :
    verificar_processo_llm_gemini envOkDecision proc0 =
      (Except.ok ⟨"approved", "ok", ["POL-1"]⟩, true) :=
  C1_amended envOkDecision proc0
    ⟨RespText.json (Json.obj
      [("decision", Json.str "approved"), ("rationale", Json.str "ok"),
       ("citacoes", Json.arr [Json.str "POL-1"])]), 0, "BLOCK_REASON_UNSPECIFIED"⟩
    (Json.obj
      [("decision", Json.str "approved"), ("rationale", Json.str "ok"),
       ("citacoes", Json.arr [Json.str "POL-1"])])
    ⟨"approved", "ok", ["POL-1"]⟩ rfl rfl rfl rfl rfl rfl

/-- Claim C3 (corrected by this theorem): the decision endpoint is exposed
at `POST /verificar`, not at `POST /verify`. -/
theorem C3_counterexample :
    verificar_route = ("POST", "/verificar") ∧ verificar_route.2 ≠ "/verify" :=
  ⟨rfl, by decide⟩

/-- Claim C3, amended: the decision operation is exposed at
`POST /verificar`; it accepts a raw `ProcessoJudicial` JSON payload, runs
schema validation, invokes the evaluator, and on success returns status
200 with the decision serialized per the output schema. -/
theorem C3_amended (env : GeminiEnv) (payload : Json) (p : ProcessoJudicial)
    (d : DecisaoProcesso) (c : Bool)
    (hv : validateProcesso payload = Except.ok p)
    (he : verificar_processo_llm_gemini env p = (Except.ok d, c)) :
    verificar_processo env payload = (⟨200, serializeDecisao d⟩, c) ∧
    verificar_route = ("POST", "/verificar") := by
  constructor
  · simp [verificar_processo, hv, he]
  · rfl

/-- Concrete instance of `C3_amended` at `envOkDecision` and a valid
payload. -/
theorem C3_amended_witness :
    verificar_processo envOkDecision payloadOk =
      (⟨200, serializeDecisao ⟨"approved", "ok", ["POL-1"]⟩⟩, true) :=
  (C3_amended envOkDecision payloadOk proc0 ⟨"approved", "ok", ["POL-1"]⟩ true rfl rfl).1

/-- Claim C7 (confirmed): for every process state — in particular with the
credential absent or the reasoning service failing — `GET /health`
returns status 200 with body status "ok" and a string message, and the
reasoning service is not invoked (second component false). -/
theorem C7_health (env : GeminiEnv) :
    health_check env =
      (⟨200, Json.obj [("status", Json.str "ok"), ("message", Json.str "API operacional")]⟩,
        false) ∧
    health_route = ("GET", "/health") :=
  ⟨rfl, rfl⟩

/-- Claim C8 (code bug): the outbound call carries an explicit timeout, but
its value is 300 — not the 60 seconds the adjacent source comment
documents, and not on the order of tens of seconds under either unit
reading (the SDK interprets `HttpOptions.timeout` in milliseconds, giving
0.3 s; a seconds reading would give 5 minutes). -/
theorem C8_timeout_value :
    http_options.timeout = 300 ∧
    http_options.timeout ≠ 60 ∧ http_options.timeout ≠ 60000 ∧
    ¬(10 ≤ http_options.timeout ∧ http_options.timeout < 100) ∧
    ¬(10000 ≤ http_options.timeout ∧ http_options.timeout < 100000) := by
  decide

/-- Claim C9 (corrected by this theorem): a payload whose judicial sphere
lies outside every enumeration and whose condemnation value is negative
passes validation, and the handler proceeds to evaluation (status 200,
outbound call performed) instead of rejecting it. -/
theorem C9_counterexample :
    validateProcesso payloadMunicipal =
      Except.ok ⟨"0002", "Municipal", -1, false, true, false, false⟩ ∧
    ¬("Municipal" = "Federal" ∨ "Municipal" = "Estadual" ∨ "Municipal" = "Trabalhista") ∧
    (-1 : Int) < 0 ∧
    (verificar_processo envOkDecision payloadMunicipal).1.status = 200 ∧
    (verificar_processo envOkDecision payloadMunicipal).2 = true :=
  ⟨rfl, by decide, by decide, rfl, rfl⟩

/-- Claim C9, amended: input validation enforces field presence and
structural types only; any sphere string and any (also negative)
condemnation value are accepted, and such payloads are never answered with
the validation status 422. -/
theorem C9_amended (n e : String) (v : Int) (a b c d : Bool) (env : GeminiEnv) :
    validateProcesso (Json.obj (stdPayload n e v a b c d)) = Except.ok ⟨n, e, v, a, b, c, d⟩ ∧
    (verificar_processo env (Json.obj (stdPayload n e v a b c d))).1.status ≠ 422 := by
  have hv : validateProcesso (Json.obj (stdPayload n e v a b c d)) =
      Except.ok ⟨n, e, v, a, b, c, d⟩ := rfl
  refine ⟨hv, ?_⟩
  simp only [verificar_processo, hv]
  rcases hres : verificar_processo_llm_gemini env ⟨n, e, v, a, b, c, d⟩ with ⟨res, cc⟩
  cases res with
  | ok dd => simp
  | error pe => cases pe <;> simp

/-- Claim C10 (confirmed): validation of a request body depends only on
the seven declared fields — payloads agreeing on those lookups validate
identically — and a payload carrying the seven well-typed fields plus any
extra keys is accepted, the extra keys being ignored. -/
theorem C10_extras_ignored :
    (∀ kvs kvs' : List (String × Json),
      (∀ k ∈ requiredKeys, jlookup kvs k = jlookup kvs' k) →
      validateProcesso (Json.obj kvs) = validateProcesso (Json.obj kvs')) ∧
    (∀ (n e : String) (v : Int) (a b c d : Bool) (extras : List (String × Json)),
      validateProcesso (Json.obj (stdPayload n e v a b c d ++ extras)) =
        Except.ok ⟨n, e, v, a, b, c, d⟩) := by
  constructor
  · intro kvs kvs' h
    have h1 := h "numeroProcesso" (by simp [requiredKeys])
    have h2 := h "esfera" (by simp [requiredKeys])
    have h3 := h "valorCondenacao" (by simp [requiredKeys])
    have h4 := h "documentos_faltando" (by simp [requiredKeys])
    have h5 := h "transitou_julgado" (by simp [requiredKeys])
    have h6 := h "substabelecimento_sem_reserva" (by simp [requiredKeys])
    have h7 := h "obito_autor" (by simp [requiredKeys])
    simp only [validateProcesso, getStr, getNum, getBool, h1, h2, h3, h4, h5, h6, h7]
  · intro n e v a b c d extras
    rfl

/-- A payload with all seven declared fields and one unknown extra key. -/
def payloadExtra : Json :=
  Json.obj (stdPayload "0001" "Federal" 5000 false true false false ++
            [("unknown_key", Json.str "x")])

/-- Concrete instance of `C10_extras_ignored`: the extra-key payload is
accepted and validates exactly like the same payload without the extra. -/
theorem C10_extras_ignored_witness :
    validateProcesso payloadExtra = Except.ok proc0 ∧
    validateProcesso payloadExtra = validateProcesso payloadOk := by
  constructor
  · exact C10_extras_ignored.2 "0001" "Federal" 5000 false true false false
      [("unknown_key", Json.str "x")]
  · have hpf : ∀ k ∈ requiredKeys,
        jlookup (stdPayload "0001" "Federal" 5000 false true false false ++
          [("unknown_key", Json.str "x")]) k =
        jlookup (stdPayload "0001" "Federal" 5000 false true false false) k := by
      intro k hk
      simp only [requiredKeys, List.mem_cons, List.not_mem_nil, or_false] at hk
      rcases hk with rfl | rfl | rfl | rfl | rfl | rfl | rfl <;> rfl
    exact C10_extras_ignored.1
      (stdPayload "0001" "Federal" 5000 false true false false ++
        [("unknown_key", Json.str "x")])
      (stdPayload "0001" "Federal" 5000 false true false false) hpf

/-- Claim C2 (confirmed): on a schema-valid request the handler maps the
absent credential (detected inside the first evaluation attempt, no
outbound call performed, no crash — a response is returned) to status 500,
and each reasoning-service failure — empty text, safety block, raised
upstream exception, schema violation on a decoded response, malformed
JSON text — to status 503 with the underlying cause carried in the body. -/
theorem C2_status_mapping :
    (∀ (env : GeminiEnv) (payload : Json) (p : ProcessoJudicial),
      validateProcesso payload = Except.ok p →
      isFalsyKey env.GEMINI_API_KEY = true →
      verificar_processo env payload =
        (⟨500, detailBody ("Erro de Configuração: " ++ msgMissingKey)⟩, false)) ∧
    (∀ (env : GeminiEnv) (payload : Json) (p : ProcessoJudicial) (r : GeminiResponse),
      validateProcesso payload = Except.ok p →
      isFalsyKey env.GEMINI_API_KEY = false → env.clientInitError = none →
      env.call (buildPrompt p) = CallOutcome.returned r → r.text = RespText.noText →
      verificar_processo env payload =
        (⟨503, detailBody ("Erro no Serviço LLM: " ++ (msgWrap ++ msgEmpty))⟩, true)) ∧
    (∀ (env : GeminiEnv) (payload : Json) (p : ProcessoJudicial) (r : GeminiResponse),
      validateProcesso payload = Except.ok p →
      isFalsyKey env.GEMINI_API_KEY = false → env.clientInitError = none →
      env.call (buildPrompt p) = CallOutcome.returned r → isNoText r.text = false →
      r.blockReason ≠ 0 →
      verificar_processo env payload =
        (⟨503, detailBody
          ("Erro no Serviço LLM: " ++ (msgWrap ++ (msgBlocked ++ r.blockReasonName)))⟩, true)) ∧
    (∀ (env : GeminiEnv) (payload : Json) (p : ProcessoJudicial) (m : String),
      validateProcesso payload = Except.ok p →
      isFalsyKey env.GEMINI_API_KEY = false → env.clientInitError = none →
      env.call (buildPrompt p) = CallOutcome.raised m →
      verificar_processo env payload =
        (⟨503, detailBody ("Erro no Serviço LLM: " ++ (msgWrap ++ m))⟩, true)) ∧
    (∀ (env : GeminiEnv) (payload : Json) (p : ProcessoJudicial) (r : GeminiResponse)
       (j : Json) (m : String),
      validateProcesso payload = Except.ok p →
      isFalsyKey env.GEMINI_API_KEY = false → env.clientInitError = none →
      env.call (buildPrompt p) = CallOutcome.returned r → r.text = RespText.json j →
      r.blockReason = 0 → validateDecisao j = Except.error m →
      verificar_processo env payload =
        (⟨503, detailBody ("Erro no Serviço LLM: " ++ (msgWrap ++ m))⟩, true)) ∧
    (∀ (env : GeminiEnv) (payload : Json) (p : ProcessoJudicial) (r : GeminiResponse)
       (raw : String),
      validateProcesso payload = Except.ok p →
      isFalsyKey env.GEMINI_API_KEY = false → env.clientInitError = none →
      env.call (buildPrompt p) = CallOutcome.returned r → r.text = RespText.malformed raw →
      r.blockReason = 0 →
      verificar_processo env payload =
        (⟨503, detailBody ("Erro no Serviço LLM: " ++ (msgWrap ++ msgBadJson raw))⟩, true)) := by
  refine ⟨?_, ?_, ?_, ?_, ?_, ?_⟩
  · intro env payload p hv hkey
    simp [verificar_processo, hv, verificar_processo_llm_gemini, hkey]
  · intro env payload p r hv hkey hinit hcall htext
    simp [verificar_processo, hv, verificar_processo_llm_gemini, hkey, hinit, hcall,
          geminiTryBody, htext, isNoText]
  · intro env payload p r hv hkey hinit hcall hnotext hblock
    simp [verificar_processo, hv, verificar_processo_llm_gemini, hkey, hinit, hcall,
          geminiTryBody, hnotext, hblock]
  · intro env payload p m hv hkey hinit hcall
    simp [verificar_processo, hv, verificar_processo_llm_gemini, hkey, hinit, hcall,
          geminiTryBody]
  · intro env payload p r j m hv hkey hinit hcall htext hblock hval
    simp [verificar_processo, hv, verificar_processo_llm_gemini, hkey, hinit, hcall,
          geminiTryBody, htext, hblock, hval, isNoText]
  · intro env payload p r raw hv hkey hinit hcall htext hblock
    simp [verificar_processo, hv, verificar_processo_llm_gemini, hkey, hinit, hcall,
          geminiTryBody, htext, hblock, isNoText]

/-- Concrete instances of `C2_status_mapping`, one per failure kind. -/
theorem C2_status_mapping_witness :
    verificar_processo envNoKey payloadOk =
      (⟨500, detailBody ("Erro de Configuração: " ++ msgMissingKey)⟩, false) ∧
    verificar_processo envEmptyText payloadOk =
      (⟨503, detailBody ("Erro no Serviço LLM: " ++ (msgWrap ++ msgEmpty))⟩, true) ∧
    verificar_processo envBlockedResp payloadOk =
      (⟨503, detailBody ("Erro no Serviço LLM: " ++ (msgWrap ++ (msgBlocked ++ "SAFETY")))⟩,
        true) ∧
    verificar_processo envRaised payloadOk =
      (⟨503, detailBody ("Erro no Serviço LLM: " ++ (msgWrap ++ "timeout"))⟩, true) ∧
    verificar_processo envBadSchema payloadOk =
      (⟨503, detailBody
        ("Erro no Serviço LLM: " ++ (msgWrap ++ ("Field required: " ++ "decision")))⟩, true) ∧
    verificar_processo envMalformed payloadOk =
      (⟨503, detailBody ("Erro no Serviço LLM: " ++ (msgWrap ++ msgBadJson "oops"))⟩, true) :=
  ⟨C2_status_mapping.1 envNoKey payloadOk proc0 rfl rfl,
   C2_status_mapping.2.1 envEmptyText payloadOk proc0
     ⟨RespText.noText, 0, "BLOCK_REASON_UNSPECIFIED"⟩ rfl rfl rfl rfl rfl,
   C2_status_mapping.2.2.1 envBlockedResp payloadOk proc0
     ⟨RespText.json Json.null, 1, "SAFETY"⟩ rfl rfl rfl rfl rfl (by decide),
   C2_status_mapping.2.2.2.1 envRaised payloadOk proc0 "timeout" rfl rfl rfl rfl,
   C2_status_mapping.2.2.2.2.1 envBadSchema payloadOk proc0
     ⟨RespText.json (Json.obj []), 0, "BLOCK_REASON_UNSPECIFIED"⟩ (Json.obj [])
     ("Field required: " ++ "decision") rfl rfl rfl rfl rfl rfl rfl,
   C2_status_mapping.2.2.2.2.2 envMalformed payloadOk proc0
     ⟨RespText.malformed "oops", 0, "BLOCK_REASON_UNSPECIFIED"⟩ "oops" rfl rfl rfl rfl rfl rfl⟩

/-- Claim C4 (confirmed): a request payload lacking any of the seven
required `ProcessoJudicial` fields is answered 422 with a structured error
body, and the reasoning service is never called, whatever the
environment. -/
theorem C4_validation_shortcircuit (kvs : List (String × Json)) (k : String) (env : GeminiEnv)
    (hk : k ∈ requiredKeys) (hmiss : jlookup kvs k = none) :
    (verificar_processo env (Json.obj kvs)).1.status = 422 ∧
    (verificar_processo env (Json.obj kvs)).2 = false ∧
    ∃ m, verificar_processo env (Json.obj kvs) = (⟨422, detailBody m⟩, false) := by
  obtain ⟨m, hm⟩ := validateProcesso_err_of_missing kvs k hk hmiss
  refine ⟨?_, ?_, m, ?_⟩ <;> simp [verificar_processo, hm]

/-- Concrete instance of `C4_validation_shortcircuit`: omitting
`valorCondenacao` yields 422 and no outbound call. -/
theorem C4_validation_shortcircuit_witness :
    ("valorCondenacao" ∈ requiredKeys) ∧
    (verificar_processo envOkDecision payloadMissingValor).1.status = 422 ∧
    (verificar_processo envOkDecision payloadMissingValor).2 = false := by
  have h := C4_validation_shortcircuit
    [("numeroProcesso", Json.str "0001"), ("esfera", Json.str "Federal"),
     ("documentos_faltando", Json.bool false), ("transitou_julgado", Json.bool true),
     ("substabelecimento_sem_reserva", Json.bool false), ("obito_autor", Json.bool false)]
    "valorCondenacao" envOkDecision (by decide) rfl
  exact ⟨by decide, h.1, h.2.1⟩

/-- Claim C5 (corrected by `C5_counterexample`): a well-typed response
whose decision kind is outside the three permitted values, or whose
citation list is empty, is not rejected — the evaluator returns it as a
decision. Only structural violations fail. -/
theorem C5_counterexample :
    (verificar_processo_llm_gemini envBanana proc0).1 =
      Except.ok ⟨"banana", "", ["POL-999"]⟩ ∧
    ¬("banana" = "approved" ∨ "banana" = "rejected" ∨ "banana" = "incomplete") ∧
    (verificar_processo_llm_gemini envEmptyCitacoes proc0).1 =
      Except.ok ⟨"approved", "r", []⟩ :=
  ⟨rfl, by decide, rfl⟩

/-- Claim C5, amended: a response whose text is valid JSON missing a
required output field, or whose text is not valid JSON, does fail — the
evaluator raises the wrapped `RuntimeError` (the schema-violation failure)
instead of returning a decision. -/
theorem C5_amended :
    (∀ (env : GeminiEnv) (p : ProcessoJudicial) (r : GeminiResponse)
       (kvs : List (String × Json)) (k : String),
      isFalsyKey env.GEMINI_API_KEY = false → env.clientInitError = none →
      env.call (buildPrompt p) = CallOutcome.returned r →
      r.text = RespText.json (Json.obj kvs) → r.blockReason = 0 →
      k ∈ requiredDecisaoKeys → jlookup kvs k = none →
      ∃ m, verificar_processo_llm_gemini env p =
        (Except.error (PyError.runtimeError (msgWrap ++ m)), true)) ∧
    (∀ (env : GeminiEnv) (p : ProcessoJudicial) (r : GeminiResponse) (raw : String),
      isFalsyKey env.GEMINI_API_KEY = false → env.clientInitError = none →
      env.call (buildPrompt p) = CallOutcome.returned r →
      r.text = RespText.malformed raw → r.blockReason = 0 →
      verificar_processo_llm_gemini env p =
        (Except.error (PyError.runtimeError (msgWrap ++ msgBadJson raw)), true)) := by
  constructor
  · intro env p r kvs k hkey hinit hcall htext hblock hk hmiss
    obtain ⟨m, hm⟩ := validateDecisao_err_of_missing kvs k hk hmiss
    refine ⟨m, ?_⟩
    simp [verificar_processo_llm_gemini, hkey, hinit, hcall, geminiTryBody, htext, hblock,
          isNoText, hm]
  · intro env p r raw hkey hinit hcall htext hblock
    simp [verificar_processo_llm_gemini, hkey, hinit, hcall, geminiTryBody, htext, hblock,
          isNoText]

/-- Concrete instances of `C5_amended`: a response missing every output
field, and a non-JSON response, both surface as the wrapped failure. -/
theorem C5_amended_witness :
    (∃ m, verificar_processo_llm_gemini envBadSchema proc0 =
      (Except.error (PyError.runtimeError (msgWrap ++ m)), true)) ∧
    verificar_processo_llm_gemini envMalformed proc0 =
      (Except.error (PyError.runtimeError (msgWrap ++ msgBadJson "oops")), true) :=
  ⟨C5_amended.1 envBadSchema proc0
     ⟨RespText.json (Json.obj []), 0, "BLOCK_REASON_UNSPECIFIED"⟩ [] "decision"
     rfl rfl rfl rfl rfl (by decide) rfl,
   C5_amended.2 envMalformed proc0
     ⟨RespText.malformed "oops", 0, "BLOCK_REASON_UNSPECIFIED"⟩ "oops" rfl rfl rfl rfl rfl⟩

/-- Claim C6 (confirmed): after a successful call the checks run in a
fixed order — empty text first (it decides even when a block indicator is
also set), then the safety-block indicator, then decode-and-validate — a
validated decision is returned only when all pass, and the empty-response
failure differs from every safety-block failure. -/
theorem C6_check_order :
    (∀ r : GeminiResponse, r.text = RespText.noText →
      geminiTryBody (CallOutcome.returned r) = Except.error msgEmpty) ∧
    (∀ r : GeminiResponse, isNoText r.text = false → r.blockReason ≠ 0 →
      geminiTryBody (CallOutcome.returned r) = Except.error (msgBlocked ++ r.blockReasonName)) ∧
    (∀ (r : GeminiResponse) (j : Json), r.text = RespText.json j → r.blockReason = 0 →
      geminiTryBody (CallOutcome.returned r) = validateDecisao j) ∧
    (∀ (r : GeminiResponse) (j : Json) (d : DecisaoProcesso),
      r.text = RespText.json j → r.blockReason = 0 → validateDecisao j = Except.ok d →
      geminiTryBody (CallOutcome.returned r) = Except.ok d) ∧
    (∀ (env env2 : GeminiEnv) (p p2 : ProcessoJudicial) (r r2 : GeminiResponse),
      isFalsyKey env.GEMINI_API_KEY = false → env.clientInitError = none →
      env.call (buildPrompt p) = CallOutcome.returned r → r.text = RespText.noText →
      isFalsyKey env2.GEMINI_API_KEY = false → env2.clientInitError = none →
      env2.call (buildPrompt p2) = CallOutcome.returned r2 → isNoText r2.text = false →
      r2.blockReason ≠ 0 →
      verificar_processo_llm_gemini env p ≠ verificar_processo_llm_gemini env2 p2) := by
  refine ⟨?_, ?_, ?_, ?_, ?_⟩
  · intro r htext
    simp [geminiTryBody, htext, isNoText]
  · intro r hnotext hblock
    simp [geminiTryBody, hnotext, hblock]
  · intro r j htext hblock
    simp [geminiTryBody, htext, hblock, isNoText]
  · intro r j d htext hblock hval
    simp [geminiTryBody, htext, hblock, hval, isNoText]
  · intro env env2 p p2 r r2 hk1 hi1 hc1 ht1 hk2 hi2 hc2 ht2 hb2
    have e1 : verificar_processo_llm_gemini env p =
        (Except.error (PyError.runtimeError (msgWrap ++ msgEmpty)), true) := by
      simp [verificar_processo_llm_gemini, hk1, hi1, hc1, geminiTryBody, ht1, isNoText]
    have e2 : verificar_processo_llm_gemini env2 p2 =
        (Except.error (PyError.runtimeError
          (msgWrap ++ (msgBlocked ++ r2.blockReasonName))), true) := by
      simp [verificar_processo_llm_gemini, hk2, hi2, hc2, geminiTryBody, ht2, hb2]
    rw [e1, e2]
    simp only [ne_eq, Prod.mk.injEq, Except.error.injEq, PyError.runtimeError.injEq, and_true]
    exact wrapped_empty_ne_blocked r2.blockReasonName

/-- Concrete instances of `C6_check_order`, including an empty response
that also carries a block indicator (the empty check wins). -/
theorem C6_check_order_witness :
    geminiTryBody (CallOutcome.returned ⟨RespText.noText, 5, "SAFETY"⟩) =
      Except.error msgEmpty ∧
    geminiTryBody (CallOutcome.returned ⟨RespText.malformed "oops", 2, "OTHER"⟩) =
      Except.error (msgBlocked ++ "OTHER") ∧
    geminiTryBody (CallOutcome.returned ⟨RespText.json (Json.obj []), 0, "NONE"⟩) =
      validateDecisao (Json.obj []) ∧
    verificar_processo_llm_gemini envEmptyText proc0 ≠
      verificar_processo_llm_gemini envBlockedResp proc0 :=
  ⟨C6_check_order.1 ⟨RespText.noText, 5, "SAFETY"⟩ rfl,
   C6_check_order.2.1 ⟨RespText.malformed "oops", 2, "OTHER"⟩ rfl (by decide),
   C6_check_order.2.2.1 ⟨RespText.json (Json.obj []), 0, "NONE"⟩ (Json.obj []) rfl rfl,
   C6_check_order.2.2.2.2 envEmptyText envBlockedResp proc0 proc0
     ⟨RespText.noText, 0, "BLOCK_REASON_UNSPECIFIED"⟩
     ⟨RespText.json Json.null, 1, "SAFETY"⟩
     rfl rfl rfl rfl rfl rfl rfl rfl (by decide)⟩
